import Mathlib

/-!
Shallow embedding of the core of the `rs-clob-client` repository (a Rust client for the
Polymarket CLOB), together with theorems settling the specification claims about it.

The embedding covers:
* the hierarchical rate limiter (`src/rate_limit.rs` and `src/http/rate_limit.rs`);
* the authentication state machine (`src/clob/client.rs`: `AuthenticationBuilder::authenticate`,
  `Client::deauthenticate`, `Client::promote_to_builder`);
* order signing (`Client::sign`) and pagination (`Client::stream_data`).

Modelling conventions:
* `Arc<T>` reference counts are modelled by an explicit `rc : Nat` field; `Arc::into_inner`
  succeeds exactly when the count is 1.
* Rust panics are modelled by `Option` (for `parse_quota`-style fail-fast parsing) or by an
  explicit `RustOutcome.panicked` constructor (for `Client::sign`).
* `DashMap`s are modelled as association lists: the claims only inspect them as values.
* Network calls and cryptographic primitives are external collaborators; they enter the model
  as explicit function parameters over which the theorems quantify.
-/

namespace RsClobClient

/-! ## Rate limiter (src/rate_limit.rs, src/http/rate_limit.rs)

Both files define structurally identical `Quota`/`Spec` types and `parse_quota` functions;
they differ in the body of `check_spec`.  A `governor` quota is a replenish period together
with a maximum burst size. -/

/-- `governor::Quota` as produced by `parse_quota`: a replenish period (in seconds) and a
maximum burst size. -/
structure GovQuota where
  periodSecs : Nat
  maxBurst : Nat
deriving Repr, DecidableEq

/-- `parse_quota` from `src/rate_limit.rs` (lines 100–112).  The Rust function panics on an
unsupported period literal and on a zero count (`NonZeroU32::new(count).expect(..)`); panics
are modelled as `none`.  `GovernorQuota::with_period` only returns `None` for a zero duration,
which cannot arise from the period table below, so its `unwrap_or_else` panic is unreachable. -/
def parse_quota (count : Nat) (period : String) : Option GovQuota :=
  let duration : Option Nat :=
    if period = "1s" then some 1
    else if period = "10s" then some 10
    else if period = "1m" ∨ period = "60s" then some 60
    else if period = "10m" ∨ period = "600s" then some 600
    else none
  match duration with
  | none => none
  | some secs => if count = 0 then none else some ⟨secs, count⟩

/-- `parse_quota_str` from `src/http/rate_limit.rs` (lines 99–111); its body is textually
identical to `parse_quota`. -/
def parse_quota_str (count : Nat) (period : String) : Option GovQuota :=
  let duration : Option Nat :=
    if period = "1s" then some 1
    else if period = "10s" then some 10
    else if period = "1m" ∨ period = "60s" then some 60
    else if period = "10m" ∨ period = "600s" then some 600
    else none
  match duration with
  | none => none
  | some secs => if count = 0 then none else some ⟨secs, count⟩

/-- The `Quota` enum shared by both rate-limiter modules: a single window, or a
burst/sustained pair. -/
inductive Quota where
  | single (quota : GovQuota)
  | multiWindow (burst sustained : GovQuota)
deriving Repr, DecidableEq

/-- The `Spec` struct shared by both rate-limiter modules. -/
structure Spec where
  key : String
  quota : Quota
  api_quota : Option GovQuota
deriving Repr, DecidableEq

/-- The mutable state of a `RateLimiters` value at the moment a `check_spec` call starts:
the tokens currently available in each named bucket that already exists, and the tokens of
the optional global bucket (`none` when no global limiter is configured).  Buckets are
created lazily: a name absent from `buckets` denotes a bucket that will be created by
`get_or_create_limiter`, full at its quota's burst size. -/
structure LimitersState where
  buckets : List (String × Nat)
  global : Option Nat
deriving Repr, DecidableEq

/-- Tokens available in the bucket stored under `name`, creating it full (at the first-seen
quota's burst size) when absent — `RateLimiters::get_or_create_limiter`. -/
def tokensOf (buckets : List (String × Nat)) (name : String) (quota : GovQuota) : Nat :=
  match buckets.lookup name with
  | some t => t
  | none => quota.maxBurst

/-- What one admission attempt did to one bucket: whether a token was consumed from it
before the call proceeded, and whether the caller suspended (`until_ready().await`) on it. -/
structure AcqResult where
  acquired : Bool
  waited : Bool
deriving Repr, DecidableEq

/-- `governor`'s non-blocking `check()`: consume one token if available. -/
def bucketCheck (tokens : Nat) : Option Nat :=
  if tokens = 0 then none else some (tokens - 1)

/-- `governor`'s blocking `until_ready().await`: always ends up consuming a token; the call
suspends exactly when no token is available at the moment of the call. -/
def untilReady (tokens : Nat) : AcqResult :=
  { acquired := true, waited := tokens == 0 }

/-- The `Quota::MultiWindow` arm of `RateLimiters::check_spec` in `src/rate_limit.rs`
(lines 199–205): both buckets are `check()`ed without blocking (the Rust `match` scrutinee
evaluates both calls, so each successful `check()` consumes a token); if burst passed, the
request is allowed through; if only sustained passed, the caller waits on burst alone; if
neither passed, the caller waits on both.  Returns the (burst, sustained) outcomes. -/
def multiWindowAdmit (burst sustained : Nat) : AcqResult × AcqResult :=
  match bucketCheck burst, bucketCheck sustained with
  | some _, some _ => ({ acquired := true, waited := false }, { acquired := true, waited := false })
  | some _, none => ({ acquired := true, waited := false }, { acquired := false, waited := false })
  | none, some _ => ({ acquired := true, waited := true }, { acquired := true, waited := false })
  | none, none => ({ acquired := true, waited := true }, { acquired := true, waited := true })

/-- The bucket name used for the API-level limiter:
`spec.key.split('_').next().unwrap_or("unknown")` followed by `_api`. -/
def apiBucketName (key : String) : String :=
  ((key.splitOn "_").headD "unknown") ++ "_api"

/-- Everything one `check_spec` call did, bucket by bucket: the endpoint-level bucket(s) in
order, the API-level bucket when an `api_quota` is configured, and the global bucket when
one is configured. -/
structure SpecOutcome where
  endpoint : List (String × AcqResult)
  api : Option (String × AcqResult)
  global : Option AcqResult
deriving Repr, DecidableEq

/-- `RateLimiters::check_spec` from `src/rate_limit.rs` (lines 178–228): the endpoint,
API-level and global admissions are three futures joined concurrently; chain members with
distinct names access distinct buckets, so their effects are recorded independently (an
endpoint key crafted to collide with its own api bucket name would alias; that pathology
is outside the model). -/
def check_spec (st : LimitersState) (spec : Spec) : SpecOutcome :=
  let endpoint :=
    match spec.quota with
    | .single quota => [(spec.key, untilReady (tokensOf st.buckets spec.key quota))]
    | .multiWindow burst sustained =>
        let burst_key := spec.key ++ "_burst"
        let sustained_key := spec.key ++ "_sustained"
        let r := multiWindowAdmit (tokensOf st.buckets burst_key burst)
          (tokensOf st.buckets sustained_key sustained)
        [(burst_key, r.1), (sustained_key, r.2)]
  let api :=
    spec.api_quota.map fun quota =>
      let api_key := apiBucketName spec.key
      (api_key, untilReady (tokensOf st.buckets api_key quota))
  { endpoint := endpoint, api := api, global := st.global.map untilReady }

/-- `RateLimiters::check_spec` from `src/http/rate_limit.rs` (lines 197–228): the same
chain, but every bucket is awaited with `until_ready()` serially — in the `MultiWindow`
case the burst bucket is awaited and then the sustained bucket, with no non-blocking
fast path. -/
def http_check_spec (st : LimitersState) (spec : Spec) : SpecOutcome :=
  let endpoint :=
    match spec.quota with
    | .single quota => [(spec.key, untilReady (tokensOf st.buckets spec.key quota))]
    | .multiWindow burst sustained =>
        let burst_key := spec.key ++ "_burst"
        let sustained_key := spec.key ++ "_sustained"
        [(burst_key, untilReady (tokensOf st.buckets burst_key burst)),
         (sustained_key, untilReady (tokensOf st.buckets sustained_key sustained))]
  let api :=
    spec.api_quota.map fun quota =>
      let api_key := apiBucketName spec.key
      (api_key, untilReady (tokensOf st.buckets api_key quota))
  { endpoint := endpoint, api := api, global := st.global.map untilReady }

/-! ## Authentication state machine (src/clob/client.rs) -/

/-- Ethereum addresses (`alloy::primitives::Address`), modelled as naturals; the zero
address `Address::ZERO` is `0`. -/
abbrev Address := Nat

/-- `SignatureType` from `crate::clob::types` (the type is declared outside `src/`, but its
three variants `Eoa`, `Proxy`, `GnosisSafe` are fixed by the spec and exercised throughout
`src/clob/client.rs`). -/
inductive SignatureType where
  | eoa
  | proxy
  | gnosisSafe
deriving Repr, DecidableEq

/-- The credential bundle: API key, secret, passphrase. -/
structure Credentials where
  key : String
  secret : String
  passphrase : String
deriving Repr, DecidableEq

/-- The error taxonomy surfaced by the core (`crate::error`): validation, synchronization,
missing contract configuration, and transport/status failures (collapsed into one carrier
since the claims never split them further). -/
inductive Error where
  | validation (msg : String)
  | synchronization
  | missingContractConfig (chainId : Nat) (negRisk : Bool)
  | status (msg : String)
deriving Repr, DecidableEq

/-- Whether a `Result` failed with a `Validation` error. -/
def isValidationError {α : Type} : Except Error α → Bool
  | .error (.validation _) => true
  | _ => false

/-- Modelled from the spec: the two chain ids this exchange supports (`crate::POLYGON`,
`crate::AMOY` are declared outside `src/`).  The values are the Polygon mainnet and Amoy
testnet chain ids; the claims need only that they are fixed and distinct. -/
def POLYGON : Nat := 137

/-- Modelled from the spec: see `POLYGON`. -/
def AMOY : Nat := 80002

/-- Modelled from the spec: salt generators are stored as function pointers (`fn() -> u64`);
`generate_seed` ("a process-local pseudo-random u64 generator", declared in
`src/clob/order_builder.rs`, not under `src/`) is the default.  Only the identity of the
stored pointer is observable to the claims, so pointers are modelled as tags. -/
inductive SaltGen where
  | generateSeed
  | custom (id : Nat)
deriving Repr, DecidableEq

/-- Modelled from the spec: per-market minimum tick size (`crate::clob::types::TickSize` is
declared outside `src/`; the claims only move the cached values around). -/
abbrev TickSize := Nat

/-- The `reqwest::Client` transport handle, opaque to the claims; modelled as a tag so that
"carried over unchanged" is stateable. -/
structure ReqwestClient where
  id : Nat
deriving Repr, DecidableEq

/-- `Config` from `src/clob/client.rs` (lines 368–382).  The `heartbeat_interval` field is
gated behind the `heartbeats` cargo feature, which this model compiles out. -/
structure Config where
  use_server_time : Bool
  geoblock_host : Option String
deriving Repr, DecidableEq

/-- The `Unauthenticated` typestate (a unit struct). -/
structure Unauthenticated where
deriving Repr, DecidableEq

/-- The `Normal` authentication kind (a unit struct). -/
structure Normal where
deriving Repr, DecidableEq

/-- The `Authenticated<K>` typestate: owner address, credentials and kind. -/
structure Authenticated (K : Type) where
  address : Address
  credentials : Credentials
  kind : K
deriving Repr, DecidableEq

/-- `ClientInner<S>` from `src/clob/client.rs` (lines 387–412); the three `DashMap` caches
are modelled as association lists. -/
structure ClientInner (S : Type) where
  config : Config
  state : S
  host : String
  geoblock_host : String
  client : ReqwestClient
  tick_sizes : List (String × TickSize)
  neg_risk : List (String × Bool)
  fee_rate_bps : List (String × Nat)
  funder : Option Address
  signature_type : SignatureType
  salt_generator : SaltGen
deriving Repr, DecidableEq

/-- `Client<S>`: an `Arc` around a `ClientInner<S>`.  `rc` models the strong count of that
`Arc` at the moment an operation runs; the `heartbeat_token` field is gated behind the
`heartbeats` feature, which this model compiles out. -/
structure Client (S : Type) where
  rc : Nat
  inner : ClientInner S
deriving Repr, DecidableEq

/-- `Arc::into_inner`: succeeds exactly when the caller holds the only strong reference. -/
def arcIntoInner {α : Type} (rc : Nat) (v : α) : Option α :=
  if rc = 1 then some v else none

/-- The default geoblock host (`DEFAULT_GEOBLOCK_HOST`, line 385). -/
def DEFAULT_GEOBLOCK_HOST : String := "https://polymarket.com"

/-- `Client::<Unauthenticated>::new` (lines 910–944).  Header-map construction and
`Url::parse` are transport-layer; the claims quantify over successfully constructed
clients, so the success path is modelled (host strings are kept verbatim). -/
def Client.new (host : String) (config : Config) : Client Unauthenticated :=
  { rc := 1
    inner :=
      { config := config
        host := host
        geoblock_host := config.geoblock_host.getD DEFAULT_GEOBLOCK_HOST
        client := { id := 0 }
        tick_sizes := []
        neg_risk := []
        fee_rate_bps := []
        state := {}
        funder := none
        signature_type := .eoa
        salt_generator := .generateSeed } }

/-- The signing capability handed to `authenticate` and `sign`: it yields an address and an
optional chain id (`alloy::signers::Signer`); its hash-signing behaviour enters the model
separately where needed. -/
structure Signer where
  address : Address
  chain_id : Option Nat
deriving Repr, DecidableEq

/-- `AuthenticationBuilder<S, K>` from `src/clob/client.rs` (lines 70–91). -/
structure AuthenticationBuilder (K : Type) where
  client : Client Unauthenticated
  signer : Signer
  credentials : Option Credentials
  nonce : Option Nat
  kind : K
  funder : Option Address
  signature_type : Option SignatureType
  salt_generator : Option SaltGen
deriving Repr, DecidableEq

/-- `Client::<Unauthenticated>::authentication_builder` (lines 946–960): seeds the builder
from the client's stored order parameters, with no credentials, nonce or salt generator. -/
def Client.authentication_builder (c : Client Unauthenticated) (signer : Signer) :
    AuthenticationBuilder Normal :=
  { signer := signer
    credentials := none
    nonce := none
    kind := {}
    funder := c.inner.funder
    signature_type := some c.inner.signature_type
    client := c
    salt_generator := none }

/-- The builder's `funder` setter (lines 106–110). -/
def AuthenticationBuilder.setFunder {K : Type} (b : AuthenticationBuilder K) (funder : Address) :
    AuthenticationBuilder K :=
  { b with funder := some funder }

/-- The builder's `signature_type` setter (lines 112–116). -/
def AuthenticationBuilder.setSignatureType {K : Type} (b : AuthenticationBuilder K)
    (signature_type : SignatureType) : AuthenticationBuilder K :=
  { b with signature_type := some signature_type }

/-- The builder's `nonce` setter (lines 94–98). -/
def AuthenticationBuilder.setNonce {K : Type} (b : AuthenticationBuilder K) (nonce : Nat) :
    AuthenticationBuilder K :=
  { b with nonce := some nonce }

/-- The builder's `credentials` setter (lines 100–104). -/
def AuthenticationBuilder.setCredentials {K : Type} (b : AuthenticationBuilder K)
    (credentials : Credentials) : AuthenticationBuilder K :=
  { b with credentials := some credentials }

/-- The chain validation at the top of `authenticate` (lines 133–148): only `POLYGON` and
`AMOY` pass; an absent chain id is a validation error.  The subsequent
`chain_id().expect("validated above")` cannot fire (same pure value re-read), so the
validated chain id is returned directly. -/
def validateChain (chain_id : Option Nat) : Except Error Nat :=
  match chain_id with
  | some chain =>
      if chain = POLYGON ∨ chain = AMOY then .ok chain
      else .error (.validation "Only Polygon and AMOY are supported")
  | none => .error (.validation "Chain id not set, be sure to provide one on the signer")

/-- The funder auto-derivation step of `authenticate` (lines 150–175).  The derivation
functions `derive_proxy_wallet` / `derive_safe_wallet` are pure crate functions declared
outside `src/`; they enter as parameters (`none` = derivation unsupported on this chain). -/
def deriveFunder (deriveProxy deriveSafe : Address → Nat → Option Address)
    (signerAddress : Address) (chain_id : Nat)
    (funder : Option Address) (signature_type : Option SignatureType) :
    Except Error (Option Address) :=
  match funder, signature_type with
  | none, some .proxy =>
      match deriveProxy signerAddress chain_id with
      | some derived => .ok (some derived)
      | none => .error (.validation "Proxy wallet derivation not supported on this chain. Please provide an explicit funder address.")
  | none, some .gnosisSafe =>
      match deriveSafe signerAddress chain_id with
      | some derived => .ok (some derived)
      | none => .error (.validation "Safe wallet derivation not supported on this chain. Please provide an explicit funder address.")
  | f, _ => .ok f

/-- The funder/scheme consistency check of `authenticate` (lines 177–193): a funder with an
explicit `Eoa` signature type is rejected, as is a zero funder with an explicit `Proxy` or
`GnosisSafe` signature type; every other combination falls through. -/
def consistencyCheck (funder : Option Address) (signature_type : Option SignatureType) :
    Except Error Unit :=
  match funder, signature_type with
  | some _, some .eoa =>
      .error (.validation "Cannot have a funder address with a Eoa signature type")
  | some 0, some .proxy =>
      .error (.validation "Cannot have a zero funder address with a Proxy signature type")
  | some 0, some .gnosisSafe =>
      .error (.validation "Cannot have a zero funder address with a GnosisSafe signature type")
  | _, _ => .ok ()

/-- The credential acquisition step of `authenticate` (lines 195–207): explicit credentials
plus a nonce is a validation error; explicit credentials alone are used verbatim; otherwise
`create_or_derive_api_key` runs (a network call, entering as the `createOrDerive`
parameter, applied to the builder's nonce). -/
def acquireCredentials (createOrDerive : Option Nat → Except Error Credentials)
    (credentials : Option Credentials) (nonce : Option Nat) : Except Error Credentials :=
  match credentials, nonce with
  | some _, some _ =>
      .error (.validation "Credentials and nonce are both set. If nonce is set, then you must not supply credentials")
  | some c, none => .ok c
  | none, n => createOrDerive n

/-- `AuthenticationBuilder::authenticate` (lines 130–244), with the `heartbeats` feature
compiled out.  The first step is `Arc::into_inner(self.client.inner).ok_or(Synchronization)`;
then chain validation, funder derivation, the consistency check, credential acquisition,
and finally construction of the authenticated client (with `signature_type` defaulting to
`Eoa` and `salt_generator` to `generate_seed`). -/
def AuthenticationBuilder.authenticate {K : Type}
    (deriveProxy deriveSafe : Address → Nat → Option Address)
    (createOrDerive : Option Nat → Except Error Credentials)
    (b : AuthenticationBuilder K) : Except Error (Client (Authenticated K)) :=
  match arcIntoInner b.client.rc b.client.inner with
  | none => .error .synchronization
  | some inner =>
    match validateChain b.signer.chain_id with
    | .error e => .error e
    | .ok chain_id =>
      match deriveFunder deriveProxy deriveSafe b.signer.address chain_id b.funder
          b.signature_type with
      | .error e => .error e
      | .ok funder =>
        match consistencyCheck funder b.signature_type with
        | .error e => .error e
        | .ok () =>
          match acquireCredentials createOrDerive b.credentials b.nonce with
          | .error e => .error e
          | .ok credentials =>
            .ok
              { rc := 1
                inner :=
                  { state :=
                      { address := b.signer.address
                        credentials := credentials
                        kind := b.kind }
                    config := inner.config
                    host := inner.host
                    geoblock_host := inner.geoblock_host
                    client := inner.client
                    tick_sizes := inner.tick_sizes
                    neg_risk := inner.neg_risk
                    fee_rate_bps := inner.fee_rate_bps
                    funder := funder
                    signature_type := b.signature_type.getD .eoa
                    salt_generator := b.salt_generator.getD .generateSeed } }

/-- `Client::<Authenticated<K>>::deauthenticate` (lines 1004–1028), with the `heartbeats`
feature compiled out: requires exclusive ownership of the shared inner state, then rebuilds
an unauthenticated client carrying the transport state over and resetting the order
parameters. -/
def Client.deauthenticate {K : Type} (c : Client (Authenticated K)) :
    Except Error (Client Unauthenticated) :=
  match arcIntoInner c.rc c.inner with
  | none => .error .synchronization
  | some inner =>
      .ok
        { rc := 1
          inner :=
            { state := {}
              host := inner.host
              geoblock_host := inner.geoblock_host
              config := inner.config
              client := inner.client
              tick_sizes := inner.tick_sizes
              neg_risk := inner.neg_risk
              fee_rate_bps := inner.fee_rate_bps
              funder := none
              signature_type := .eoa
              salt_generator := .generateSeed } }

/-- Modelled from the spec: the delegated-identity configuration carried by the `Builder`
kind (`crate::auth::builder::Config` is declared outside `src/`); opaque to the claims. -/
structure BuilderConfig where
  id : Nat
deriving Repr, DecidableEq

/-- The `Builder` authentication kind (`crate::auth::builder::Builder`): the supplied
configuration plus a clone of the transport handle, as constructed in
`promote_to_builder`. -/
structure Builder where
  config : BuilderConfig
  client : ReqwestClient
deriving Repr, DecidableEq

/-- `Client::<Authenticated<Normal>>::promote_to_builder` (lines 1599–1648), with the
`heartbeats` feature compiled out: requires exclusive ownership, then rewraps the state
with a `Builder` kind, preserving address, credentials and all other inner fields. -/
def Client.promote_to_builder (c : Client (Authenticated Normal)) (config : BuilderConfig) :
    Except Error (Client (Authenticated Builder)) :=
  match arcIntoInner c.rc c.inner with
  | none => .error .synchronization
  | some inner =>
      .ok
        { rc := 1
          inner :=
            { config := inner.config
              state :=
                { address := inner.state.address
                  credentials := inner.state.credentials
                  kind := { config := config, client := inner.client } }
              host := inner.host
              geoblock_host := inner.geoblock_host
              client := inner.client
              tick_sizes := inner.tick_sizes
              neg_risk := inner.neg_risk
              fee_rate_bps := inner.fee_rate_bps
              funder := inner.funder
              signature_type := inner.signature_type
              salt_generator := inner.salt_generator } }

/-! ## Order signing (`Client::<Authenticated<K>>::sign`, lines 1093–1131) -/

/-- Modelled from the spec: order side (buy/sell). -/
inductive Side where
  | buy
  | sell
deriving Repr, DecidableEq

/-- Modelled from the spec: the order-kind tag carried by a `SignableOrder`
(limit / market). -/
inductive OrderType where
  | limit
  | market
deriving Repr, DecidableEq

/-- Modelled from the spec: the order tuple ("maker/taker token ids, maker/taker amounts,
side, expiration, nonce, fee rate, salt, signer, taker, signature type"); the concrete
`Order` sol-type is declared outside `src/`.  `tokenId` is the field `sign` reads. -/
structure Order where
  salt : Nat
  maker : Address
  signer : Address
  taker : Address
  tokenId : Nat
  makerAmount : Nat
  takerAmount : Nat
  expiration : Nat
  nonce : Nat
  feeRateBps : Nat
  side : Side
  signatureType : SignatureType
deriving Repr, DecidableEq

/-- `SignableOrder`: intent plus an order-type tag and a post-only flag (destructured by
`sign` at lines 1096–1100). -/
structure SignableOrder where
  order : Order
  order_type : OrderType
  post_only : Bool
deriving Repr, DecidableEq

/-- An opaque signature value returned by the signer. -/
structure Signature where
  bytes : Nat
deriving Repr, DecidableEq

/-- `SignedOrder` as constructed at lines 1124–1130: the inner order, the computed
signature, the order-type tag, the owning credential key, and the post-only flag. -/
structure SignedOrder where
  order : Order
  signature : Signature
  order_type : OrderType
  owner : String
  post_only : Bool
deriving Repr, DecidableEq

/-- Modelled from the spec: the structured-data domain registry entry for a
(chain id, negative-risk) pair — `crate::contract_config` is declared outside `src/`; the
claims only read the exchange (verifying contract) address. -/
structure ContractConfig where
  exchange : Address
deriving Repr, DecidableEq

/-- The EIP-712 domain assembled by `sign` (lines 1112–1118). -/
structure Eip712Domain where
  name : Option String
  version : Option String
  chain_id : Option Nat
  verifying_contract : Option Address
deriving Repr, DecidableEq

/-- `ORDER_NAME` (line 63). -/
def ORDER_NAME : Option String := some "Polymarket CTF Exchange"

/-- `VERSION` (line 64). -/
def VERSION : Option String := some "1"

/-- The outcome of running a Rust function that may panic: either a panic with its message,
or a normal return. -/
inductive RustOutcome (α : Type) where
  | panicked (msg : String)
  | ret (a : α)
deriving Repr, DecidableEq

/-- The read-through negative-risk resolution used by `sign`
(`self.neg_risk(&token_id).await?.neg_risk`, method body at lines 635–663): a cache hit is
returned directly, otherwise the network fetch (the `fetch` parameter) decides.  The
write-back insert on a miss is not observed by the value `sign` uses. -/
def negRiskLookup (fetch : String → Except Error Bool) (cache : List (String × Bool))
    (token_id : String) : Except Error Bool :=
  match cache.lookup token_id with
  | some b => .ok b
  | none => fetch token_id

/-- `Client::<Authenticated<K>>::sign` (lines 1093–1131).  External collaborators enter as
parameters: `contract_config` (the domain registry), `fetch` (the negative-risk endpoint),
`eip712_signing_hash` (the structured-data hash) and `sign_hash` (the signer's fallible
hash signing).  The `signer.chain_id().expect("Validated not none in authenticate")` call
panics when the supplied signer carries no chain id; that panic is modelled explicitly. -/
def Client.sign {K : Type}
    (contract_config : Nat → Bool → Option ContractConfig)
    (fetch : String → Except Error Bool)
    (eip712_signing_hash : Order → Eip712Domain → Nat)
    (sign_hash : Nat → Except Error Signature)
    (c : Client (Authenticated K)) (signer : Signer) (so : SignableOrder) :
    RustOutcome (Except Error SignedOrder) :=
  let token_id := toString so.order.tokenId
  match negRiskLookup fetch c.inner.neg_risk token_id with
  | .error e => .ret (.error e)
  | .ok neg_risk =>
    match signer.chain_id with
    | none => .panicked "Validated not none in authenticate"
    | some chain_id =>
      match contract_config chain_id neg_risk with
      | none => .ret (.error (.missingContractConfig chain_id neg_risk))
      | some config =>
        let domain : Eip712Domain :=
          { name := ORDER_NAME
            version := VERSION
            chain_id := some chain_id
            verifying_contract := some config.exchange }
        match sign_hash (eip712_signing_hash so.order domain) with
        | .error e => .ret (.error e)
        | .ok signature =>
            .ret (.ok
              { order := so.order
                signature := signature
                order_type := so.order_type
                owner := c.inner.state.credentials.key
                post_only := so.post_only })

/-! ## Pagination (`Client::stream_data`, lines 876–902) -/

/-- `TERMINAL_CURSOR` (line 66): base64 of "-1". -/
def TERMINAL_CURSOR : String := "LTE="

/-- The page type consumed by `stream_data` (declared outside `src/`; modelled from the
spec: `{ data: [T], next_cursor: string, limit, count }`). -/
structure Page (α : Type) where
  data : List α
  next_cursor : String
  limit : Nat
  count : Nat
deriving Repr, DecidableEq

/-- One run of the `stream_data` loop (lines 885–901), driven by `fuel` to keep the model
total: starting from `cursor`, fetch a page, yield its items, stop when the page's
`next_cursor` is the terminal sentinel, otherwise continue from that cursor.  Returns the
yielded items in order, the list of cursors passed to `call` (one per fetch), and whether
the stream terminated by observing the sentinel (rather than by exhausting fuel). -/
def streamDataRun {α : Type} (call : Option String → Page α) :
    Nat → Option String → List α × List (Option String) × Bool
  | 0, _ => ([], [], false)
  | fuel + 1, cursor =>
      let page := call cursor
      if page.next_cursor = TERMINAL_CURSOR then
        (page.data, [cursor], true)
      else
        let rest := streamDataRun call fuel (some page.next_cursor)
        (page.data ++ rest.1, cursor :: rest.2.1, rest.2.2)

/-- `Client::stream_data`: the loop starts with `cursor = None`. -/
def stream_data {α : Type} (call : Option String → Page α) (fuel : Nat) :
    List α × List (Option String) × Bool :=
  streamDataRun call fuel none

/-- The cursor the `i`-th fetch of the loop receives: `none` first, then the previous
page's `next_cursor`. -/
def cursorAt {α : Type} (call : Option String → Page α) : Nat → Option String
  | 0 => none
  | i + 1 => some (call (cursorAt call i)).next_cursor

/-- The `i`-th page the loop fetches. -/
def pageAt {α : Type} (call : Option String → Page α) (i : Nat) : Page α :=
  call (cursorAt call i)

/-! ## Theorems -/

/-- C5: the claim states quota parsing succeeds exactly for the period literals "1s",
"10s", "1m" and "10m"; but the source also accepts the aliases "60s" and "600s"
(`"1m" | "60s"` and `"10m" | "600s"` arms), so parsing `(5, "60s")` succeeds — refuting
"fails fast on any other period literal". -/
theorem c5_counterexample_60s_accepted :
    parse_quota 5 "60s" = some { periodSecs := 60, maxBurst := 5 } := by
  decide

/-- C5 (amended): `parse_quota` (and the textually identical `parse_quota_str`) succeeds
exactly for the period literals "1s", "10s", "1m", "60s", "10m", "600s" — yielding periods
of 1, 10, 60, 60, 600 and 600 seconds respectively — and fails fast (panics, modelled as
`none`) on any other period literal and on a count of zero. -/
theorem c5_quota_parsing (count : Nat) (period : String) (hc : 0 < count) :
    parse_quota count "1s" = some { periodSecs := 1, maxBurst := count } ∧
    parse_quota count "10s" = some { periodSecs := 10, maxBurst := count } ∧
    parse_quota count "1m" = some { periodSecs := 60, maxBurst := count } ∧
    parse_quota count "60s" = some { periodSecs := 60, maxBurst := count } ∧
    parse_quota count "10m" = some { periodSecs := 600, maxBurst := count } ∧
    parse_quota count "600s" = some { periodSecs := 600, maxBurst := count } ∧
    (period ∉ (["1s", "10s", "1m", "60s", "10m", "600s"] : List String) →
      parse_quota count period = none) ∧
    parse_quota 0 period = none ∧
    parse_quota_str count period = parse_quota count period := by
  have hc0 : count ≠ 0 := Nat.pos_iff_ne_zero.mp hc
  refine ⟨?_, ?_, ?_, ?_, ?_, ?_, ?_, ?_, rfl⟩
  · simp [parse_quota, hc0]
  · simp [parse_quota, hc0]
  · simp [parse_quota, hc0]
  · simp [parse_quota, hc0]
  · simp [parse_quota, hc0]
  · simp [parse_quota, hc0]
  · intro hmem
    simp only [List.mem_cons, List.not_mem_nil, or_false, not_or] at hmem
    obtain ⟨h1, h2, h3, h4, h5, h6⟩ := hmem
    simp [parse_quota, h1, h2, h3, h4, h5, h6]
  · by_cases h1 : period = "1s" <;>
      by_cases h2 : period = "10s" <;>
      by_cases h3 : period = "1m" ∨ period = "60s" <;>
      by_cases h4 : period = "10m" ∨ period = "600s" <;>
      simp [parse_quota, h1, h2, h3, h4]

/-- C5 witness: the amended characterization evaluated at count 100 and period "10s". -/
theorem c5_quota_parsing_witness :
    0 < 100 ∧ parse_quota 100 "10s" = some { periodSecs := 10, maxBurst := 100 } :=
  ⟨by decide, (c5_quota_parsing 100 "10s" (by decide)).2.1⟩

/-- C2: the claim describes the burst-priority fast path for "the multi-window endpoint
admission check (check_spec with a MultiWindow quota)", citing both `src/rate_limit.rs`
and `src/http/rate_limit.rs`; but the `http` variant has no non-blocking fast path — it
awaits the burst bucket and then the sustained bucket unconditionally.  Concretely, with a
token available in the burst bucket and none in the sustained bucket, its admission waits
on the sustained bucket instead of admitting immediately. -/
theorem c2_counterexample_http_waits_on_sustained :
    tokensOf [("k_burst", 1), ("k_sustained", 0)] "k_burst"
        { periodSecs := 1, maxBurst := 3 } = 1 ∧
    (http_check_spec { buckets := [("k_burst", 1), ("k_sustained", 0)], global := none }
        { key := "k",
          quota := .multiWindow { periodSecs := 1, maxBurst := 3 }
            { periodSecs := 1, maxBurst := 5 },
          api_quota := none }).endpoint =
      [("k_burst", { acquired := true, waited := false }),
       ("k_sustained", { acquired := true, waited := true })] := by
  constructor
  · decide
  · decide

/-- C2 (amended): the claimed burst-priority behaviour holds for `check_spec` in
`src/rate_limit.rs` (the concurrent limiter): with a MultiWindow quota, if the burst
bucket has a token at the initial non-blocking check the call proceeds with no waiting on
either endpoint bucket regardless of the sustained bucket's state; if burst is not ready
but sustained is, only the burst bucket is waited on; if neither is ready, both are waited
on.  (The `src/http/rate_limit.rs` variant instead awaits burst then sustained serially.) -/
theorem c2_multi_window_priority (st : LimitersState) (key : String)
    (burst sustained : GovQuota) (api_quota : Option GovQuota) :
    (tokensOf st.buckets (key ++ "_burst") burst ≠ 0 →
      ((check_spec st
          { key := key, quota := .multiWindow burst sustained, api_quota := api_quota
          }).endpoint.map fun p => p.2.waited) = [false, false]) ∧
    (tokensOf st.buckets (key ++ "_burst") burst = 0 →
      tokensOf st.buckets (key ++ "_sustained") sustained ≠ 0 →
      ((check_spec st
          { key := key, quota := .multiWindow burst sustained, api_quota := api_quota
          }).endpoint.map fun p => p.2.waited) = [true, false]) ∧
    (tokensOf st.buckets (key ++ "_burst") burst = 0 →
      tokensOf st.buckets (key ++ "_sustained") sustained = 0 →
      ((check_spec st
          { key := key, quota := .multiWindow burst sustained, api_quota := api_quota
          }).endpoint.map fun p => p.2.waited) = [true, true]) := by
  refine ⟨fun hb => ?_, fun hb hs => ?_, fun hb hs => ?_⟩
  · by_cases hs : tokensOf st.buckets (key ++ "_sustained") sustained = 0 <;>
      simp [check_spec, multiWindowAdmit, bucketCheck, hb, hs]
  · simp [check_spec, multiWindowAdmit, bucketCheck, hb, hs]
  · simp [check_spec, multiWindowAdmit, bucketCheck, hb, hs]

/-- C2 witness: the amended behaviour at a concrete state where burst is ready and
sustained is empty — the call is admitted with no waiting. -/
theorem c2_multi_window_priority_witness :
    tokensOf [("k_burst", 1), ("k_sustained", 0)] "k_burst"
        { periodSecs := 1, maxBurst := 3 } ≠ 0 ∧
    ((check_spec { buckets := [("k_burst", 1), ("k_sustained", 0)], global := none }
        { key := "k",
          quota := .multiWindow { periodSecs := 1, maxBurst := 3 }
            { periodSecs := 1, maxBurst := 5 },
          api_quota := none }).endpoint.map fun p => p.2.waited) = [false, false] :=
  ⟨by decide,
    (c2_multi_window_priority
      { buckets := [("k_burst", 1), ("k_sustained", 0)], global := none } "k"
      { periodSecs := 1, maxBurst := 3 } { periodSecs := 1, maxBurst := 5 } none).1
      (by decide)⟩

/-- C3: the claim states that every admitted call acquires a token from every bucket in the
gate's chain — in the MultiWindow case both burst and sustained — before proceeding; but in
`src/rate_limit.rs`, when the burst bucket's non-blocking check succeeds while the
sustained bucket's fails, the call proceeds having acquired only the burst token (the
blocking limiter always admits), leaving the sustained bucket untouched. -/
theorem c3_counterexample_sustained_not_acquired :
    ((check_spec { buckets := [("k_burst", 1), ("k_sustained", 0)], global := none }
        { key := "k",
          quota := .multiWindow { periodSecs := 1, maxBurst := 3 }
            { periodSecs := 1, maxBurst := 5 },
          api_quota := none }).endpoint.map fun p => p.2.acquired) = [true, false] := by
  decide

/-- C3 (amended): admission through a named gate acquires a token from the API-level bucket
when an `api_quota` is configured and from the global bucket when one is configured (in
both limiter variants), from the endpoint bucket for Single quotas, and from every endpoint
bucket in the serial `src/http/rate_limit.rs` variant; in the concurrent
`src/rate_limit.rs` MultiWindow case the burst token is always acquired, but the sustained
token is acquired if and only if it is not the case that the burst check passes while the
sustained bucket is empty — in that one case the call proceeds on the burst token alone. -/
theorem c3_chain_acquisition (st : LimitersState) (spec : Spec) :
    ((http_check_spec st spec).endpoint.all fun p => p.2.acquired) = true ∧
    (∀ x, (http_check_spec st spec).api = some x → x.2.acquired = true) ∧
    (∀ g, (http_check_spec st spec).global = some g → g.acquired = true) ∧
    (∀ x, (check_spec st spec).api = some x → x.2.acquired = true) ∧
    (∀ g, (check_spec st spec).global = some g → g.acquired = true) ∧
    (∀ q, spec.quota = .single q →
      ((check_spec st spec).endpoint.all fun p => p.2.acquired) = true) ∧
    (∀ burst sustained, spec.quota = .multiWindow burst sustained →
      ((check_spec st spec).endpoint.map fun p => p.2.acquired) =
        [true,
         if tokensOf st.buckets (spec.key ++ "_burst") burst ≠ 0 ∧
             tokensOf st.buckets (spec.key ++ "_sustained") sustained = 0
           then false else true]) := by
  refine ⟨?_, ?_, ?_, ?_, ?_, ?_, ?_⟩
  · cases h : spec.quota <;> simp [http_check_spec, h, untilReady]
  · intro x hx
    cases hq : spec.api_quota with
    | none => simp [http_check_spec, hq] at hx
    | some q =>
        simp [http_check_spec, hq, untilReady] at hx
        cases hx
        rfl
  · intro g hg
    cases hq : st.global <;> simp [http_check_spec, hq, untilReady] at hg ⊢
    simp [hg.symm]
  · intro x hx
    cases hq : spec.api_quota with
    | none => simp [check_spec, hq] at hx
    | some q =>
        simp [check_spec, hq, untilReady] at hx
        cases hx
        rfl
  · intro g hg
    cases hq : st.global <;> simp [check_spec, hq, untilReady] at hg ⊢
    simp [hg.symm]
  · intro q hq
    simp [check_spec, hq, untilReady]
  · intro burst sustained hq
    by_cases hb : tokensOf st.buckets (spec.key ++ "_burst") burst = 0 <;>
      by_cases hs : tokensOf st.buckets (spec.key ++ "_sustained") sustained = 0 <;>
      simp [check_spec, hq, multiWindowAdmit, bucketCheck, hb, hs]

/-- C3 witness: the amended chain-acquisition facts at a concrete state and spec with an
API quota and a global bucket configured. -/
theorem c3_chain_acquisition_witness :
    ((http_check_spec { buckets := [], global := some 4 }
        { key := "book", quota := .single { periodSecs := 10, maxBurst := 1500 },
          api_quota := some { periodSecs := 10, maxBurst := 9000 } }).endpoint.all
        fun p => p.2.acquired) = true ∧
    (∀ g, (check_spec { buckets := [], global := some 4 }
        { key := "book", quota := .single { periodSecs := 10, maxBurst := 1500 },
          api_quota := some { periodSecs := 10, maxBurst := 9000 } }).global = some g →
      g.acquired = true) :=
  ⟨(c3_chain_acquisition { buckets := [], global := some 4 }
      { key := "book", quota := .single { periodSecs := 10, maxBurst := 1500 },
        api_quota := some { periodSecs := 10, maxBurst := 9000 } }).1,
   (c3_chain_acquisition { buckets := [], global := some 4 }
      { key := "book", quota := .single { periodSecs := 10, maxBurst := 1500 },
        api_quota := some { periodSecs := 10, maxBurst := 9000 } }).2.2.2.2.1⟩

/-- Every error produced by the chain validation step is a validation error. -/
lemma validateChain_error_isValidation {oc : Option Nat} {e : Error}
    (h : validateChain oc = .error e) : ∃ msg, e = .validation msg := by
  cases oc with
  | none =>
      simp [validateChain] at h
      exact ⟨_, h.symm⟩
  | some chain =>
      rcases Classical.em (chain = POLYGON ∨ chain = AMOY) with hc | hc
      · simp [validateChain, hc] at h
      · simp [validateChain, hc] at h
        exact ⟨_, h.symm⟩

/-- Every error produced by the funder-derivation step is a validation error. -/
lemma deriveFunder_error_isValidation {deriveProxy deriveSafe : Address → Nat → Option Address}
    {a : Address} {chain_id : Nat} {f : Option Address} {st : Option SignatureType} {e : Error}
    (h : deriveFunder deriveProxy deriveSafe a chain_id f st = .error e) :
    ∃ msg, e = .validation msg := by
  cases f with
  | some x => simp [deriveFunder] at h
  | none =>
      cases st with
      | none => simp [deriveFunder] at h
      | some s =>
          cases s with
          | eoa => simp [deriveFunder] at h
          | proxy =>
              cases hd : deriveProxy a chain_id with
              | some d => simp [deriveFunder, hd] at h
              | none =>
                  simp [deriveFunder, hd] at h
                  exact ⟨_, h.symm⟩
          | gnosisSafe =>
              cases hd : deriveSafe a chain_id with
              | some d => simp [deriveFunder, hd] at h
              | none =>
                  simp [deriveFunder, hd] at h
                  exact ⟨_, h.symm⟩

/-- Every error produced by the funder/scheme consistency check is a validation error. -/
lemma consistencyCheck_error_isValidation {f : Option Address} {st : Option SignatureType}
    {e : Error} (h : consistencyCheck f st = .error e) : ∃ msg, e = .validation msg := by
  cases f with
  | none => simp [consistencyCheck] at h
  | some a =>
      cases st with
      | none => simp [consistencyCheck] at h
      | some s =>
          cases s with
          | eoa =>
              simp [consistencyCheck] at h
              exact ⟨_, h.symm⟩
          | proxy =>
              cases a with
              | zero =>
                  simp [consistencyCheck] at h
                  exact ⟨_, h.symm⟩
              | succ n => simp [consistencyCheck] at h
          | gnosisSafe =>
              cases a with
              | zero =>
                  simp [consistencyCheck] at h
                  exact ⟨_, h.symm⟩
              | succ n => simp [consistencyCheck] at h

/-- C7: every state-transition operation — `authenticate` (elevate), `deauthenticate`
(demote) and `promote_to_builder` (promote) — fails with a `Synchronization` error, and
produces no new handle, when another clone still holds a reference to the shared inner
state at the moment of the attempt (reference count greater than one). -/
theorem c7_exclusive_ownership (K : Type)
    (deriveProxy deriveSafe : Address → Nat → Option Address)
    (createOrDerive : Option Nat → Except Error Credentials)
    (b : AuthenticationBuilder K) (c : Client (Authenticated K))
    (cn : Client (Authenticated Normal)) (config : BuilderConfig)
    (hb : 1 < b.client.rc) (hc : 1 < c.rc) (hcn : 1 < cn.rc) :
    b.authenticate deriveProxy deriveSafe createOrDerive = .error .synchronization ∧
    c.deauthenticate = .error .synchronization ∧
    cn.promote_to_builder config = .error .synchronization := by
  have hb' : b.client.rc ≠ 1 := by omega
  have hc' : c.rc ≠ 1 := by omega
  have hcn' : cn.rc ≠ 1 := by omega
  refine ⟨?_, ?_, ?_⟩
  · simp [AuthenticationBuilder.authenticate, arcIntoInner, hb']
  · simp [Client.deauthenticate, arcIntoInner, hc']
  · simp [Client.promote_to_builder, arcIntoInner, hcn']

/-- C7 witness: the three transitions on handles whose shared state is referenced by two
clones (reference count 2) all fail with `Synchronization`. -/
theorem c7_exclusive_ownership_witness :
    AuthenticationBuilder.authenticate (fun _ _ => none) (fun _ _ => none)
        (fun _ => .error (.status "network unavailable"))
        { client :=
            { rc := 2
              inner := (Client.new "https://clob.polymarket.com"
                  { use_server_time := false, geoblock_host := none }).inner }
          signer := { address := 7, chain_id := some POLYGON }
          credentials := none
          nonce := none
          kind := ({} : Normal)
          funder := none
          signature_type := some .eoa
          salt_generator := none } = .error .synchronization ∧
    Client.deauthenticate
        { rc := 2
          inner :=
            { config := { use_server_time := false, geoblock_host := none }
              state :=
                ({ address := 7
                   credentials := { key := "k", secret := "s", passphrase := "p" }
                   kind := {} } : Authenticated Normal)
              host := "https://clob.polymarket.com"
              geoblock_host := "https://polymarket.com"
              client := { id := 0 }
              tick_sizes := []
              neg_risk := []
              fee_rate_bps := []
              funder := none
              signature_type := .eoa
              salt_generator := .generateSeed } } = .error .synchronization ∧
    Client.promote_to_builder
        { rc := 2
          inner :=
            { config := { use_server_time := false, geoblock_host := none }
              state :=
                ({ address := 7
                   credentials := { key := "k", secret := "s", passphrase := "p" }
                   kind := {} } : Authenticated Normal)
              host := "https://clob.polymarket.com"
              geoblock_host := "https://polymarket.com"
              client := { id := 0 }
              tick_sizes := []
              neg_risk := []
              fee_rate_bps := []
              funder := none
              signature_type := .eoa
              salt_generator := .generateSeed } } { id := 3 } = .error .synchronization :=
  c7_exclusive_ownership Normal (fun _ _ => none) (fun _ _ => none)
    (fun _ => .error (.status "network unavailable")) _ _ _ _
    (by decide) (by decide) (by decide)

/-- C10: for a sole-owner authenticated client, `deauthenticate` returns an
`Unauthenticated` client whose order parameters are reset to defaults (`funder = None`,
`signature_type = Eoa`, the default salt generator) while the host, geoblock host, config,
HTTP client and the three per-market metadata caches are carried over unchanged. -/
theorem c10_deauthenticate_frame (K : Type) (c : Client (Authenticated K)) (h : c.rc = 1) :
    c.deauthenticate = .ok
      { rc := 1
        inner :=
          { state := {}
            host := c.inner.host
            geoblock_host := c.inner.geoblock_host
            config := c.inner.config
            client := c.inner.client
            tick_sizes := c.inner.tick_sizes
            neg_risk := c.inner.neg_risk
            fee_rate_bps := c.inner.fee_rate_bps
            funder := none
            signature_type := .eoa
            salt_generator := .generateSeed } } := by
  simp [Client.deauthenticate, arcIntoInner, h]

/-- C10 witness: `deauthenticate` evaluated on a concrete sole-owner authenticated client,
with populated caches and non-default order parameters. -/
theorem c10_deauthenticate_frame_witness :
    Client.deauthenticate
        { rc := 1
          inner :=
            { config := { use_server_time := true, geoblock_host := some "https://geo.test" }
              state :=
                ({ address := 7
                   credentials := { key := "k", secret := "s", passphrase := "p" }
                   kind := {} } : Authenticated Normal)
              host := "https://clob.polymarket.com"
              geoblock_host := "https://geo.test"
              client := { id := 5 }
              tick_sizes := [("tok", 2)]
              neg_risk := [("tok", true)]
              fee_rate_bps := [("tok", 30)]
              funder := some 9
              signature_type := .proxy
              salt_generator := .custom 4 } } = .ok
      { rc := 1
        inner :=
          { state := {}
            host := "https://clob.polymarket.com"
            geoblock_host := "https://geo.test"
            config := { use_server_time := true, geoblock_host := some "https://geo.test" }
            client := { id := 5 }
            tick_sizes := [("tok", 2)]
            neg_risk := [("tok", true)]
            fee_rate_bps := [("tok", 30)]
            funder := none
            signature_type := .eoa
            salt_generator := .generateSeed } } :=
  c10_deauthenticate_frame Normal _ rfl

/-- C6: whenever both explicit credentials and a nonce are supplied on the builder, a
sole-owner elevation attempt fails with a Validation error regardless of all other builder
fields — every earlier `authenticate` step (chain validation, funder derivation, the
consistency check) can only fail with Validation, and if all of them pass, the
credentials/nonce conflict itself is a Validation error. -/
theorem c6_credentials_and_nonce_conflict (K : Type)
    (deriveProxy deriveSafe : Address → Nat → Option Address)
    (createOrDerive : Option Nat → Except Error Credentials)
    (b : AuthenticationBuilder K) (cr : Credentials) (n : Nat)
    (hrc : b.client.rc = 1) (hcred : b.credentials = some cr) (hnonce : b.nonce = some n) :
    isValidationError (b.authenticate deriveProxy deriveSafe createOrDerive) = true := by
  unfold AuthenticationBuilder.authenticate
  split
  · next heq => simp [arcIntoInner, hrc] at heq
  · next inner heq =>
      split
      · next e h1 =>
          obtain ⟨msg, rfl⟩ := validateChain_error_isValidation h1
          rfl
      · next chain_id h1 =>
          split
          · next e h2 =>
              obtain ⟨msg, rfl⟩ := deriveFunder_error_isValidation h2
              rfl
          · next funder h2 =>
              split
              · next e h3 =>
                  obtain ⟨msg, rfl⟩ := consistencyCheck_error_isValidation h3
                  rfl
              · next u h3 =>
                  split
                  · next e h4 =>
                      simp [acquireCredentials, hcred, hnonce] at h4
                      simp [← h4, isValidationError]
                  · next creds h4 =>
                      simp [acquireCredentials, hcred, hnonce] at h4

/-- C6 witness: a concrete sole-owner elevation attempt carrying both credentials and a
nonce fails with Validation. -/
theorem c6_credentials_and_nonce_conflict_witness :
    isValidationError (AuthenticationBuilder.authenticate (fun _ _ => none) (fun _ _ => none)
      (fun _ => .error (.status "network unavailable"))
      { client := Client.new "https://clob.polymarket.com"
          { use_server_time := false, geoblock_host := none }
        signer := { address := 7, chain_id := some POLYGON }
        credentials := some { key := "k", secret := "s", passphrase := "p" }
        nonce := some 1
        kind := ({} : Normal)
        funder := none
        signature_type := some .eoa
        salt_generator := none }) = true :=
  c6_credentials_and_nonce_conflict Normal (fun _ _ => none) (fun _ _ => none)
    (fun _ => .error (.status "network unavailable")) _
    { key := "k", secret := "s", passphrase := "p" } 1 rfl rfl rfl

/-- C1: for a sole-owner elevation attempt, an effective `Eoa` scheme together with a
supplied funder fails with Validation; "signature_type left unset" means the seeded
`Some(Eoa)` from `authentication_builder` (which copies the client's stored signature
type, `Eoa` on a fresh client), so the default case is covered by the same statement; the
other valid (scheme, funder) combinations pass the consistency check; and a zero funder
with `Proxy` or `GnosisSafe` fails with Validation, both at the check and through
`authenticate`. -/
theorem c1_funder_scheme_consistency
    (deriveProxy deriveSafe : Address → Nat → Option Address)
    (createOrDerive : Option Nat → Except Error Credentials) :
    (∀ (K : Type) (b : AuthenticationBuilder K) (a : Address),
      b.client.rc = 1 → b.signature_type = some .eoa → b.funder = some a →
      isValidationError (b.authenticate deriveProxy deriveSafe createOrDerive) = true) ∧
    (∀ (c : Client Unauthenticated) (signer : Signer),
      (c.authentication_builder signer).signature_type = some c.inner.signature_type) ∧
    (∀ (host : String) (config : Config),
      (Client.new host config).inner.signature_type = .eoa) ∧
    consistencyCheck none (some .eoa) = .ok () ∧
    (∀ a : Address, a ≠ 0 →
      consistencyCheck (some a) (some .proxy) = .ok () ∧
      consistencyCheck (some a) (some .gnosisSafe) = .ok ()) ∧
    (∀ st : SignatureType, st = .proxy ∨ st = .gnosisSafe →
      consistencyCheck (some 0) (some st) =
        .error (.validation ("Cannot have a zero funder address with a " ++
          (match st with | .eoa => "Eoa" | .proxy => "Proxy" | .gnosisSafe => "GnosisSafe") ++
          " signature type"))) ∧
    (∀ (K : Type) (b : AuthenticationBuilder K),
      b.client.rc = 1 → b.funder = some 0 →
      (b.signature_type = some .proxy ∨ b.signature_type = some .gnosisSafe) →
      isValidationError (b.authenticate deriveProxy deriveSafe createOrDerive) = true) := by
  refine ⟨?_, fun c signer => rfl, fun host config => rfl, rfl, ?_, ?_, ?_⟩
  · intro K b a hrc hsig hfun
    unfold AuthenticationBuilder.authenticate
    split
    · next heq => simp [arcIntoInner, hrc] at heq
    · next inner heq =>
        split
        · next e h1 =>
            obtain ⟨msg, rfl⟩ := validateChain_error_isValidation h1
            rfl
        · next chain_id h1 =>
            rw [hfun, hsig]
            simp [deriveFunder, consistencyCheck, isValidationError]
  · intro a ha
    cases a with
    | zero => exact absurd rfl ha
    | succ n => exact ⟨rfl, rfl⟩
  · intro st hst
    rcases hst with rfl | rfl <;> rfl
  · intro K b hrc hfun hsig
    unfold AuthenticationBuilder.authenticate
    split
    · next heq => simp [arcIntoInner, hrc] at heq
    · next inner heq =>
        split
        · next e h1 =>
            obtain ⟨msg, rfl⟩ := validateChain_error_isValidation h1
            rfl
        · next chain_id h1 =>
            rcases hsig with h | h <;> rw [hfun, h] <;>
              simp [deriveFunder, consistencyCheck, isValidationError]

/-- C1 witness: a concrete sole-owner elevation with the (default) `Eoa` signature type
and a supplied funder fails with Validation; the consistency check passes at
(`Proxy`, nonzero funder). -/
theorem c1_funder_scheme_consistency_witness :
    isValidationError (AuthenticationBuilder.authenticate (fun _ _ => none) (fun _ _ => none)
      (fun _ => .error (.status "network unavailable"))
      { client := Client.new "https://clob.polymarket.com"
          { use_server_time := false, geoblock_host := none }
        signer := { address := 7, chain_id := some POLYGON }
        credentials := none
        nonce := none
        kind := ({} : Normal)
        funder := some 9
        signature_type := some .eoa
        salt_generator := none }) = true ∧
    (9 : Address) ≠ 0 ∧
    consistencyCheck (some 9) (some .proxy) = .ok () :=
  ⟨(c1_funder_scheme_consistency (fun _ _ => none) (fun _ _ => none)
      (fun _ => .error (.status "network unavailable"))).1 Normal _ 9 rfl rfl rfl,
   by decide,
   ((c1_funder_scheme_consistency (fun _ _ => none) (fun _ _ => none)
      (fun _ => .error (.status "network unavailable"))).2.2.2.2.1 9 (by decide)).1⟩

/-- C4: the claim (and the spec's no-panic rule) says `Client::sign` on an authenticated
client returns a `Result` for an arbitrary caller-supplied signer, including one whose
chain id is absent; but the source calls
`signer.chain_id().expect("Validated not none in authenticate")` on the `sign` argument,
which was never validated — `sign` takes any signer, not the one passed to `authenticate` —
so the call panics on this ordinary bad input. -/
theorem c4_sign_panics_on_missing_chain_id :
    Client.sign (fun _ _ => none) (fun _ => .ok false) (fun _ _ => 0)
        (fun _ => .ok { bytes := 0 })
        { rc := 1
          inner :=
            { config := { use_server_time := false, geoblock_host := none }
              state :=
                ({ address := 7
                   credentials := { key := "k", secret := "s", passphrase := "p" }
                   kind := {} } : Authenticated Normal)
              host := "https://clob.polymarket.com"
              geoblock_host := "https://polymarket.com"
              client := { id := 0 }
              tick_sizes := []
              neg_risk := []
              fee_rate_bps := []
              funder := none
              signature_type := .eoa
              salt_generator := .generateSeed } }
        { address := 7, chain_id := none }
        { order :=
            { salt := 0
              maker := 7
              signer := 7
              taker := 0
              tokenId := 123
              makerAmount := 5
              takerAmount := 4
              expiration := 0
              nonce := 0
              feeRateBps := 0
              side := .buy
              signatureType := .eoa }
          order_type := .limit
          post_only := false } = .panicked "Validated not none in authenticate" := by
  rfl

/-- C9: a successful `sign` carries the inner order unchanged and the input's
`order_type`/`post_only` tags, and adds exactly the computed signature and the session's
credential key as owner; when no exchange contract configuration exists for the
(chain id, negative-risk) pair, `sign` fails with the missing-contract-configuration
error instead. -/
theorem c9_sign_round_trip (K : Type)
    (contract_config : Nat → Bool → Option ContractConfig)
    (fetch : String → Except Error Bool)
    (eip712_signing_hash : Order → Eip712Domain → Nat)
    (sign_hash : Nat → Except Error Signature)
    (c : Client (Authenticated K)) (signer : Signer) (so : SignableOrder)
    (chain_id : Nat) (neg_risk : Bool)
    (hchain : signer.chain_id = some chain_id)
    (hnr : negRiskLookup fetch c.inner.neg_risk (toString so.order.tokenId) = .ok neg_risk) :
    (contract_config chain_id neg_risk = none →
      Client.sign contract_config fetch eip712_signing_hash sign_hash c signer so =
        .ret (.error (.missingContractConfig chain_id neg_risk))) ∧
    (∀ (config : ContractConfig) (signature : Signature),
      contract_config chain_id neg_risk = some config →
      sign_hash (eip712_signing_hash so.order
        { name := ORDER_NAME
          version := VERSION
          chain_id := some chain_id
          verifying_contract := some config.exchange }) = .ok signature →
      Client.sign contract_config fetch eip712_signing_hash sign_hash c signer so =
        .ret (.ok
          { order := so.order
            signature := signature
            order_type := so.order_type
            owner := c.inner.state.credentials.key
            post_only := so.post_only })) := by
  constructor
  · intro hcc
    simp only [Client.sign, hnr, hchain, hcc]
  · intro config signature hcc hsig
    simp only [Client.sign, hnr, hchain, hcc, hsig]

/-- C9 witness: a concrete successful `sign` call, resolving the negative-risk flag from
the cache, returning the signed order with the original order intact, the computed
signature and the session credential key as owner. -/
theorem c9_sign_round_trip_witness :
    negRiskLookup (fun _ => .ok false) [("123", true)] (toString (123 : Nat)) = .ok true ∧
    Client.sign (fun _ _ => some { exchange := 77 }) (fun _ => .ok false) (fun _ _ => 5)
        (fun h => .ok { bytes := h + 1 })
        { rc := 1
          inner :=
            { config := { use_server_time := false, geoblock_host := none }
              state :=
                ({ address := 7
                   credentials := { key := "creds-key", secret := "s", passphrase := "p" }
                   kind := {} } : Authenticated Normal)
              host := "https://clob.polymarket.com"
              geoblock_host := "https://polymarket.com"
              client := { id := 0 }
              tick_sizes := []
              neg_risk := [("123", true)]
              fee_rate_bps := []
              funder := none
              signature_type := .eoa
              salt_generator := .generateSeed } }
        { address := 7, chain_id := some 137 }
        { order :=
            { salt := 11
              maker := 7
              signer := 7
              taker := 0
              tokenId := 123
              makerAmount := 5
              takerAmount := 4
              expiration := 0
              nonce := 0
              feeRateBps := 0
              side := .sell
              signatureType := .eoa }
          order_type := .limit
          post_only := true } =
      .ret (.ok
        { order :=
            { salt := 11
              maker := 7
              signer := 7
              taker := 0
              tokenId := 123
              makerAmount := 5
              takerAmount := 4
              expiration := 0
              nonce := 0
              feeRateBps := 0
              side := .sell
              signatureType := .eoa }
          signature := { bytes := 6 }
          order_type := .limit
          owner := "creds-key"
          post_only := true }) :=
  ⟨rfl,
    (c9_sign_round_trip Normal (fun _ _ => some { exchange := 77 }) (fun _ => .ok false)
      (fun _ _ => 5) (fun h => .ok { bytes := h + 1 }) _ _ _ 137 true (by rfl) (by rfl)).2
      { exchange := 77 } { bytes := 6 } rfl rfl⟩

/-- Unfolding step of the `stream_data` loop when the fetched page is terminal. -/
lemma streamDataRun_succ_of_terminal {α : Type} (call : Option String → Page α) (m : Nat)
    (cursor : Option String) (h : (call cursor).next_cursor = TERMINAL_CURSOR) :
    streamDataRun call (m + 1) cursor = ((call cursor).data, [cursor], true) := by
  simp [streamDataRun, h]

/-- Unfolding step of the `stream_data` loop when the fetched page is not terminal. -/
lemma streamDataRun_succ_of_not_terminal {α : Type} (call : Option String → Page α) (m : Nat)
    (cursor : Option String) (h : (call cursor).next_cursor ≠ TERMINAL_CURSOR) :
    streamDataRun call (m + 1) cursor =
      ((call cursor).data ++ (streamDataRun call m (some (call cursor).next_cursor)).1,
       cursor :: (streamDataRun call m (some (call cursor).next_cursor)).2.1,
       (streamDataRun call m (some (call cursor).next_cursor)).2.2) := by
  simp [streamDataRun, h]

/-- With the first terminal page at index `k`, the loop started at fetch index `j = k - d`
with more than `d` fuel yields pages `j..k` and fetches exactly cursors `j..k`. -/
lemma streamDataRun_spec {α : Type} (call : Option String → Page α) (k : Nat)
    (hpre : ∀ i, i < k → (pageAt call i).next_cursor ≠ TERMINAL_CURSOR)
    (hterm : (pageAt call k).next_cursor = TERMINAL_CURSOR) :
    ∀ d j, j + d = k → ∀ fuel, d < fuel →
      streamDataRun call fuel (cursorAt call j) =
        (((List.range' j (d + 1)).map fun i => (pageAt call i).data).flatten,
         (List.range' j (d + 1)).map (cursorAt call), true) := by
  intro d
  induction d with
  | zero =>
      intro j hj fuel hf
      obtain ⟨m, rfl⟩ : ∃ m, fuel = m + 1 := ⟨fuel - 1, by omega⟩
      have hj' : j = k := by omega
      subst hj'
      rw [streamDataRun_succ_of_terminal call m (cursorAt call j) hterm]
      simp [List.range', pageAt]
  | succ d ih =>
      intro j hj fuel hf
      obtain ⟨m, rfl⟩ : ∃ m, fuel = m + 1 := ⟨fuel - 1, by omega⟩
      have hnt : (call (cursorAt call j)).next_cursor ≠ TERMINAL_CURSOR :=
        hpre j (by omega)
      have hstep : some (call (cursorAt call j)).next_cursor = cursorAt call (j + 1) := rfl
      rw [streamDataRun_succ_of_not_terminal call m (cursorAt call j) hnt, hstep,
        ih (j + 1) (by omega) m (by omega)]
      simp [List.range', pageAt]

/-- C8: for every paged fetch function whose induced page sequence first shows the terminal
sentinel at index `k` (and any fuel bound large enough to reach it), `stream_data` yields
the items of pages `0..k` in order, performs exactly the fetches at cursors
`cursorAt 0..k` — where `cursorAt (i+1)` is by definition the `next_cursor` of page `i`,
so each earlier page's cursor feeds the next fetch — and terminates by observing the
sentinel, with no fetch after it. -/
theorem c8_stream_data_terminal {α : Type} (call : Option String → Page α) (k fuel : Nat)
    (hpre : ∀ i, i < k → (pageAt call i).next_cursor ≠ TERMINAL_CURSOR)
    (hterm : (pageAt call k).next_cursor = TERMINAL_CURSOR)
    (hfuel : k < fuel) :
    stream_data call fuel =
      (((List.range (k + 1)).map fun i => (pageAt call i).data).flatten,
       (List.range (k + 1)).map (cursorAt call), true) := by
  have h := streamDataRun_spec call k hpre hterm k 0 (by omega) fuel hfuel
  simpa [stream_data, List.range_eq_range', cursorAt] using h

/-- C8 witness: a concrete two-page sequence (terminal at index 1, fuel 3): the stream
yields `[1, 2, 3]`, fetches exactly at cursors `none` and `some "a"`, and terminates. -/
theorem c8_stream_data_terminal_witness :
    (∀ i, i < 1 →
      (pageAt (fun c =>
        if c = some "a" then ({ data := [3], next_cursor := "LTE=", limit := 2, count := 1 } : Page Nat)
        else if c = none then { data := [1, 2], next_cursor := "a", limit := 2, count := 2 }
        else { data := [], next_cursor := "LTE=", limit := 2, count := 0 }) i).next_cursor ≠
        TERMINAL_CURSOR) ∧
    stream_data (fun c =>
        if c = some "a" then ({ data := [3], next_cursor := "LTE=", limit := 2, count := 1 } : Page Nat)
        else if c = none then { data := [1, 2], next_cursor := "a", limit := 2, count := 2 }
        else { data := [], next_cursor := "LTE=", limit := 2, count := 0 }) 3 =
      ([1, 2, 3], [none, some "a"], true) := by
  constructor
  · decide
  · rw [c8_stream_data_terminal (fun c =>
        if c = some "a" then ({ data := [3], next_cursor := "LTE=", limit := 2, count := 1 } : Page Nat)
        else if c = none then { data := [1, 2], next_cursor := "a", limit := 2, count := 2 }
        else { data := [], next_cursor := "LTE=", limit := 2, count := 0 }) 1 3
        (by decide) (by decide) (by decide)]
    decide

end RsClobClient
